import Mathlib

/-
Shallow embedding of src/socceraction/hybrid_vaep/base.py (class HybridVAEP).

The embedding keeps the source's names where Lean allows it.  External
collaborators (pandas data frames, the spadl name-enrichment step, the three
gradient-boosting libraries, the sklearn metric functions and the formula
module) are represented by their observable interface only: a data frame by
its list of column names, a backend training run by an oracle
`outcome : String -> String -> Option SubModel` mapping (label column, model
version) to the fitted sub-model (`none` models a training failure raised by
the backend), and metric computations by oracle functions.  All backend
libraries are assumed importable (the ImportError branches of
_fit_xgboost/_fit_catboost/_fit_lightgbm are not modelled; no claim concerns
them).  Python exceptions are modelled by the `PyError` type; a Python method
that mutates `self` and may raise is modelled as a function returning the new
instance together with an optional error, mirroring the fact that mutations
performed before the raise survive it.
-/

/-- A feature transformer (an element of `xfns` / `xfns_result`).  Modelled
from the spec: the features module (socceraction.hybrid_vaep.features) is not
among the provided sources.  Per the spec, each transformer has a stable name
and deterministically produces named columns derived from the function name
and the window offset, collision-free across functions and offsets; we record
the base column names a transformer produces per window offset. -/
structure FeatureTransfomer where
  name : String
  features : List String
deriving DecidableEq, Repr

/-- Modelled from the spec: `feature_column_names` (from the absent features
module) returns the exact set of column names extraction would produce for the
given transformers and window size, without running extraction: one column per
base feature name per window offset. -/
def feature_column_names (fns : List FeatureTransfomer) (nbPrevActions : Nat) : List String :=
  fns.flatMap fun f => f.features.flatMap fun c =>
    (List.range nbPrevActions).map fun i => c ++ "_a" ++ toString i

/-- Helper to build a default transformer from its function name.  Modelled
from the spec: each default transformer is identified by its name; its columns
are derived from that name and the window offsets. -/
def mkFT (n : String) : FeatureTransfomer := ⟨n, [n]⟩

/-- The default VAEP features (module attribute `xfns_default`, base.py lines
39-52). -/
def xfns_default : List FeatureTransfomer :=
  [mkFT "actiontype_onehot", mkFT "bodypart_onehot", mkFT "time",
   mkFT "startlocation", mkFT "endlocation", mkFT "startpolar", mkFT "endpolar",
   mkFT "movement", mkFT "team", mkFT "time_delta", mkFT "space_delta",
   mkFT "goalscore"]

/-- The default result-describing features (module attribute
`xfns_result_default`, base.py lines 54-57). -/
def xfns_result_default : List FeatureTransfomer :=
  [mkFT "result_onehot", mkFT "actiontype_result_onehot"]

/-- An opaque fitted backend classifier (the object returned by the backend
library's `fit`); only its identity matters to the trainer. -/
structure SubModel where
  id : Nat
deriving DecidableEq, Repr

/-- The private nested model mapping `self.__models`: label column to
(model version to fitted sub-model), as an insertion-ordered association
list, mirroring a Python dict of dicts. -/
abbrev Models := List (String × List (String × SubModel))

/-- A fit-time or constructor parameter value passed to a backend.  `computed`
stands for a value produced by an external library call (such as catboost's
`cat_features`, derived from the data frame's dtypes). -/
inductive PVal where
  | nat (n : Nat)
  | str (s : String)
  | bool (b : Bool)
  | evalSet
  | computed (tag : String)
deriving DecidableEq, Repr

/-- A Python keyword-argument dict, as an ordered association list; on
duplicate keys the later entry wins (see `dictGet`). -/
abbrev Params := List (String × PVal)

/-- Dict lookup with later-entries-win semantics, so that `a ++ b` models the
Python merge expression of a dict a updated by a dict b. -/
def dictGet (d : Params) (k : String) : Option PVal :=
  (d.reverse.find? fun p => p.1 = k).map Prod.snd

/-- The Python exceptions raised by base.py, by role:
`notFitted` is sklearn's NotFittedError (lines 372, 415); `missingFeature` is
the ValueError listing missing feature columns (lines 212, 328);
`unsupportedLearner` is the ValueError for an unknown learner name (line 251);
`backendFailure` stands for any exception propagating out of a backend
`model.fit` call; `keyError` is a Python KeyError on a dict or data-frame
column lookup. -/
inductive PyError where
  | notFitted
  | missingFeature (cols : List String)
  | unsupportedLearner (name : String)
  | backendFailure (col version : String)
  | keyError (key : String)
deriving DecidableEq, Repr

deriving instance DecidableEq for Except

/-- Association-list lookup mirroring a Python dict read `d[k]`
(`none` models a KeyError). -/
def lookupA {α : Type} (l : List (String × α)) (k : String) : Option α :=
  (l.find? fun p => p.1 = k).map Prod.snd

/-- The HybridVAEP instance state: the private model mapping plus the
configuration fields set in `__init__` (base.py lines 101-114). -/
structure HybridVAEP where
  models : Models
  xfns_result : List FeatureTransfomer
  xfns_standard : List FeatureTransfomer
  xfns_resultfree : List FeatureTransfomer
  yfns : List String
  nb_prev_actions : Nat
deriving DecidableEq, Repr

/-- `HybridVAEP.__init__` (base.py lines 101-114): `none` for an argument
models passing Python `None` (or omitting it). -/
def HybridVAEP.init (xfns : Option (List FeatureTransfomer))
    (xfnsResult : Option (List FeatureTransfomer)) (nbPrevActions : Nat) :
    HybridVAEP :=
  let xr := match xfnsResult with | none => xfns_result_default | some l => l
  { models := [("scores", []), ("concedes", [])]
    xfns_result := xr
    xfns_standard := match xfns with | none => xfns_default ++ xr | some l => l ++ xr
    xfns_resultfree := match xfns with | none => xfns_default | some l => l
    yfns := ["scores", "concedes"]
    nb_prev_actions := nbPrevActions }

/-- The missing-column computation shared by fit and _estimate_probabilities
(base.py lines 209-211 and 325-327): the required standard columns, filtered
to those absent from X's columns, as the deduplicated set the error message
lists (`set(cols_standard).difference(X.columns)`). -/
def missingCols (m : HybridVAEP) (xcols : List String) : List String :=
  ((feature_column_names m.xfns_standard m.nb_prev_actions).filter
    fun c => !xcols.contains c).dedup

/-- The split point `math.floor(nb_states * (1 - val_size))` of base.py
line 204, with the float arithmetic idealised over the rationals. -/
def splitPoint (nbStates : Nat) (valSize : ℚ) : Nat :=
  (Int.floor ((nbStates : ℚ) * (1 - valSize))).toNat

/-- `train_idx = idx[:math.floor(nb_states * (1 - val_size))]`
(base.py line 204). -/
def train_idx (idx : List Nat) (nbStates : Nat) (valSize : ℚ) : List Nat :=
  idx.take (splitPoint nbStates valSize)

/-- `val_idx = idx[(math.floor(nb_states * (1 - val_size)) + 1):]`
(base.py line 205): the slice starts one past the split point. -/
def val_idx (idx : List Nat) (nbStates : Nat) (valSize : ℚ) : List Nat :=
  idx.drop (splitPoint nbStates valSize + 1)

/-- Default constructor parameters of `_fit_xgboost` (base.py line 266). -/
def treeParamsXgboost : Option Params → Params
  | none => [("n_estimators", PVal.nat 100), ("max_depth", PVal.nat 3)]
  | some p => p

/-- Fit-time parameters assembled by `_fit_xgboost` (base.py lines 267-271):
defaults when the caller passed none, then, when an eval set is present, the
merge with `early_stopping_rounds=10` and the eval set, the latter winning on
duplicate keys (Python dict-unpacking merge). -/
def fitParamsXgboost (evalSet : Bool) (fitParams : Option Params) : Params :=
  let fp := match fitParams with
    | none => [("eval_metric", PVal.str "auc"), ("verbose", PVal.bool true)]
    | some p => p
  if evalSet then
    fp ++ [("early_stopping_rounds", PVal.nat 10), ("eval_set", PVal.evalSet)]
  else fp

/-- Default constructor parameters of `_fit_catboost` (base.py line 288). -/
def treeParamsCatboost : Option Params → Params
  | none => [("eval_metric", PVal.str "BrierScore"),
             ("loss_function", PVal.str "Logloss"), ("iterations", PVal.nat 100)]
  | some p => p

/-- Fit-time parameters assembled by `_fit_catboost` (base.py lines 289-297);
the default `cat_features` value is computed from the data frame's dtypes by
external library calls. -/
def fitParamsCatboost (evalSet : Bool) (fitParams : Option Params) : Params :=
  let fp := match fitParams with
    | none => [("cat_features", PVal.computed "nonzero-category-dtypes"),
               ("verbose", PVal.bool true)]
    | some p => p
  if evalSet then
    fp ++ [("early_stopping_rounds", PVal.nat 10), ("eval_set", PVal.evalSet)]
  else fp

/-- Default constructor parameters of `_fit_lightgbm` (base.py line 313). -/
def treeParamsLightgbm : Option Params → Params
  | none => [("n_estimators", PVal.nat 100), ("max_depth", PVal.nat 3)]
  | some p => p

/-- Fit-time parameters assembled by `_fit_lightgbm` (base.py lines 314-318). -/
def fitParamsLightgbm (evalSet : Bool) (fitParams : Option Params) : Params :=
  let fp := match fitParams with
    | none => [("eval_metric", PVal.str "auc"), ("verbose", PVal.bool true)]
    | some p => p
  if evalSet then
    fp ++ [("early_stopping_rounds", PVal.nat 10), ("eval_set", PVal.evalSet)]
  else fp

/-- The learner dispatch of base.py lines 238-251: for a registered learner,
the (tree params, fit params) the corresponding `_fit_*` helper would pass to
the backend; `none` for an unknown learner (the `else: raise ValueError`
branch). -/
def dispatch (learner : String) (evalSet : Bool)
    (treeParams fitParams : Option Params) : Option (Params × Params) :=
  if learner = "xgboost" then
    some (treeParamsXgboost treeParams, fitParamsXgboost evalSet fitParams)
  else if learner = "catboost" then
    some (treeParamsCatboost treeParams, fitParamsCatboost evalSet fitParams)
  else if learner = "lightgbm" then
    some (treeParamsLightgbm treeParams, fitParamsLightgbm evalSet fitParams)
  else none

/-- One backend `model.fit` invocation as observed by the backend: which
learner, which (label, version) sub-model, whether an eval set was passed
(`eval_set is not None`), and the constructor/fit parameter dicts. -/
structure BackendCall where
  learner : String
  col : String
  version : String
  evalSet : Bool
  treeParams : Params
  fitParams : Params
deriving DecidableEq, Repr

/-- Python dict assignment `inner[ver] = sm`: replace an existing binding,
else append a new one. -/
def setInner (inner : List (String × SubModel)) (ver : String) (sm : SubModel) :
    List (String × SubModel) :=
  if inner.any (fun p => p.1 = ver) then
    inner.map fun p => if p.1 = ver then (ver, sm) else p
  else inner ++ [(ver, sm)]

/-- The assignment `self.__models[col][model_version] = sm` of base.py lines
239/243/247, for a label column `col` present in the outer mapping (the outer
keys are fixed to scores/concedes by `__init__`; an absent `col` would be a
KeyError in Python and is left as the identity here, no claim exercises it). -/
def storeModel (models : Models) (col ver : String) (sm : SubModel) : Models :=
  models.map fun p => if p.1 = col then (p.1, setInner p.2 ver sm) else p

/-- The iteration order of the nested training loop of base.py lines 229-230:
for each label column, the standard then the resultfree variant. -/
def fitPairs (ycols : List String) : List (String × String) :=
  ycols.flatMap fun col => [(col, "standard"), (col, "resultfree")]

/-- The nested training loop of base.py lines 229-251: walk the (label,
version) pairs in order; for each, dispatch on the learner name (raising for
an unknown learner), invoke the backend (recording the call), and on success
store the returned sub-model.  Returns the model mapping as mutated so far,
the backend calls made, and the first propagated error if any. -/
def fitLoop (learner : String) (evalSet : Bool) (treeParams fitParams : Option Params)
    (outcome : String → String → Option SubModel) :
    List (String × String) → Models → List BackendCall →
    Models × List BackendCall × Option PyError
  | [], models, calls => (models, calls, none)
  | (col, ver) :: rest, models, calls =>
    match dispatch learner evalSet treeParams fitParams with
    | some (tps, fps) =>
      let call : BackendCall := ⟨learner, col, ver, evalSet, tps, fps⟩
      match outcome col ver with
      | some sm =>
        fitLoop learner evalSet treeParams fitParams outcome rest
          (storeModel models col ver sm) (calls ++ [call])
      | none => (models, calls ++ [call], some (PyError.backendFailure col ver))
    | none => (models, calls, some (PyError.unsupportedLearner learner))

/-- `HybridVAEP.fit` (base.py lines 161-252).  `xcols` are the columns of the
feature frame X, `nbStates` its row count, `ycols` the columns of the label
frame y, `idx` the row permutation drawn by `np.random.permutation`
(caller-visible nondeterminism, passed in), `outcome` the backend training
oracle.  Returns the instance after the call (with whatever sub-models were
stored before any failure), the backend calls made, and the propagated error
if any. -/
def HybridVAEP.fit (m : HybridVAEP) (xcols : List String) (nbStates : Nat)
    (ycols : List String) (idx : List Nat) (learner : String) (valSize : ℚ)
    (treeParams fitParams : Option Params)
    (outcome : String → String → Option SubModel) :
    HybridVAEP × List BackendCall × Option PyError :=
  let train_i := train_idx idx nbStates valSize
  let val_i := val_idx idx nbStates valSize
  let missing := missingCols m xcols
  if missing.isEmpty then
    let r := fitLoop learner (decide (0 < valSize)) treeParams fitParams outcome
      (fitPairs ycols) m.models []
    let _ := (train_i, val_i)
    ({ m with models := r.1 }, r.2.1, r.2.2)
  else (m, [], some (PyError.missingFeature missing))

/-- `HybridVAEP._estimate_probabilities` (base.py lines 323-342), abstracted
to the observable shape of its output: on success the list of columns of the
returned frame Y_hat (one probability column per stored sub-model, named
col-version); the probability values themselves come from the external
`predict_proba` calls. -/
def HybridVAEP.estimate_probabilities (m : HybridVAEP) (xcols : List String) :
    Except PyError (List String) :=
  let missing := missingCols m xcols
  if missing.isEmpty then
    m.models.foldlM (fun acc p =>
      ["standard", "resultfree"].foldlM (fun acc2 ver =>
        match lookupA p.2 ver with
        | some _ => Except.ok (acc2 ++ [p.1 ++ "-" ++ ver])
        | none => Except.error (PyError.keyError ver)) acc) []
  else Except.error (PyError.missingFeature missing)

/-- `HybridVAEP.rate` (base.py lines 344-392), up to the hand-off to the
external formula module: the not-fitted guard (line 371, `if not
self.__models`), probability estimation, and the four Y_hat column reads of
lines 379-384 in source order; the value computation itself is external. -/
def HybridVAEP.rate (m : HybridVAEP) (xcols : List String) : Except PyError Unit :=
  if m.models.isEmpty then Except.error PyError.notFitted
  else
    match m.estimate_probabilities xcols with
    | Except.error e => Except.error e
    | Except.ok yhat =>
      match ["scores-standard", "scores-resultfree", "concedes-standard",
             "concedes-resultfree"].find? (fun k => !yhat.contains k) with
      | some k => Except.error (PyError.keyError k)
      | none => Except.ok ()

/-- `HybridVAEP.score` (base.py lines 394-425): the not-fitted guard (line
414), probability estimation, then per stored label column the reads `y[col]`
and `y_hat[col]` in source evaluation order, with the Brier and AUROC values
supplied by oracles for the external sklearn metric calls. -/
def HybridVAEP.score (m : HybridVAEP) (xcols ycols : List String)
    (brier auroc : String → ℚ) : Except PyError (List (String × ℚ × ℚ)) :=
  if m.models.isEmpty then Except.error PyError.notFitted
  else
    match m.estimate_probabilities xcols with
    | Except.error e => Except.error e
    | Except.ok yhat =>
      m.models.foldlM (fun acc p =>
        if ycols.contains p.1 then
          if yhat.contains p.1 then
            Except.ok (acc ++ [(p.1, brier p.1, auroc p.1)])
          else Except.error (PyError.keyError p.1)
        else Except.error (PyError.keyError p.1)) []

/-- Lookup of a stored sub-model `self.__models[col][ver]`. -/
def getModel (m : HybridVAEP) (col ver : String) : Option SubModel :=
  match lookupA m.models col with
  | some inner => lookupA inner ver
  | none => none

/-- Whether all four (label, version) sub-models are stored: the fitted state
of the spec's trainer state machine. -/
def allFourFitted (m : HybridVAEP) : Bool :=
  ["scores", "concedes"].all fun col =>
    ["standard", "resultfree"].all fun ver => (getModel m col ver).isSome

/- Helper lemmas shared by the claim theorems. -/

theorem except_bind_error {ε α β : Type} (e : ε) (f : α → Except ε β) :
    (Except.error e >>= f) = (Except.error e : Except ε β) := rfl

theorem except_bind_ok {ε α β : Type} (a : α) (f : α → Except ε β) :
    (Except.ok a >>= f) = f a := rfl

theorem decide_rat_lt_zero_zero : (decide ((0 : ℚ) < 0)) = false := by
  rw [decide_eq_false_iff_not]
  exact lt_irrefl 0

theorem decide_rat_lt_zero_half : (decide ((0 : ℚ) < 1 / 2)) = true := by
  rw [decide_eq_true_eq]
  norm_num

/-- If every required column is present, the computed missing-column list is
empty. -/
theorem missing_nil_of_all {cols xcols : List String}
    (h : cols.all (fun c => xcols.contains c) = true) :
    (cols.filter fun c => !xcols.contains c).dedup = [] := by
  have hf : (cols.filter fun c => !xcols.contains c) = [] := by
    rw [List.filter_eq_nil_iff]
    intro a ha
    have hc := List.all_eq_true.mp h a ha
    rw [hc]
    simp
  rw [hf]
  rfl

/-- If every required standard column is present in X, the missing-column
set is empty. -/
theorem missingCols_eq_nil {m : HybridVAEP} {xcols : List String}
    (h : (feature_column_names m.xfns_standard m.nb_prev_actions).all
      (fun c => xcols.contains c) = true) :
    missingCols m xcols = [] := missing_nil_of_all h

/-- A contains test that fails is exactly non-membership. -/
theorem contains_false_iff {l : List String} {a : String} :
    l.contains a = false ↔ a ∉ l := by
  rw [← Bool.not_eq_true]
  exact not_congr List.elem_iff

/-- The probability-column fold of `_estimate_probabilities` never produces
the not-fitted error: its only failures are key errors. -/
theorem probFold_ne_notFitted (models : Models) (acc : List String) :
    models.foldlM (fun acc p =>
      ["standard", "resultfree"].foldlM (fun acc2 ver =>
        match lookupA p.2 ver with
        | some _ => Except.ok (acc2 ++ [p.1 ++ "-" ++ ver])
        | none => Except.error (PyError.keyError ver)) acc) acc
      ≠ Except.error PyError.notFitted := by
  induction models generalizing acc with
  | nil => exact fun hc => Except.noConfusion hc
  | cons p rest ih =>
    rw [List.foldlM_cons]
    rcases h1 : lookupA p.2 "standard" with _ | s1
    · simp [List.foldlM_cons, List.foldlM_nil, h1, except_bind_error]
    · rcases h2 : lookupA p.2 "resultfree" with _ | s2
      · simp [List.foldlM_cons, List.foldlM_nil, h1, h2, except_bind_error, except_bind_ok]
      · simp only [List.foldlM_cons, List.foldlM_nil, h1, h2, except_bind_ok]
        exact ih _

/-- `_estimate_probabilities` never raises NotFittedError: it has no
not-fitted guard at all. -/
theorem estimate_ne_notFitted (m : HybridVAEP) (xcols : List String) :
    m.estimate_probabilities xcols ≠ Except.error PyError.notFitted := by
  simp only [HybridVAEP.estimate_probabilities]
  split
  · exact probFold_ne_notFitted m.models []
  · simp

/-- The model mapping written by `__init__` is independent of the constructor
arguments and is a non-empty dict. -/
theorem init_models_isEmpty (xfns xr : Option (List FeatureTransfomer)) (nb : Nat) :
    (HybridVAEP.init xfns xr nb).models.isEmpty = false := rfl

/-- Claim C3: the claim says the random permutation is partitioned into the
first (1 - val_size) fraction as training rows and the remainder as
validation rows, the two parts disjoint and jointly covering all n row
indices.  The code takes `idx[:floor(n*(1-val_size))]` and
`idx[floor(n*(1-val_size)) + 1:]`: the row at position floor(n*(1-val_size))
lands in neither part.  At n = 4, val_size = 1/4 with the identity
permutation, training is [0, 1, 2], validation is empty, and index 3 is
dropped, so the two parts do not cover the indices. -/
theorem C3_split_point_row_dropped :
    train_idx [0, 1, 2, 3] 4 (1 / 4) = [0, 1, 2]
    ∧ val_idx [0, 1, 2, 3] 4 (1 / 4) = []
    ∧ ¬ ((3 : Nat) ∈ train_idx [0, 1, 2, 3] 4 (1 / 4)
         ∨ (3 : Nat) ∈ val_idx [0, 1, 2, 3] 4 (1 / 4)) := by
  have h : splitPoint 4 (1 / 4) = 3 := by
    simp only [splitPoint]
    norm_num
    rfl
  refine ⟨?_, ?_, ?_⟩
  · rw [train_idx, h]
    rfl
  · rw [val_idx, h]
    rfl
  · rw [train_idx, val_idx, h]
    decide

/-- Claim C10: fit modifies only the private model mapping; the configuration
fields xfns_standard, xfns_result, xfns_resultfree, yfns and nb_prev_actions
are unchanged by fit, so the required column set used for validation is
identical before and after fitting.  (rate, score, compute_features and
compute_labels perform no attribute assignment in the source and are embedded
as pure observers of the instance.) -/
theorem C10_fit_modifies_only_models (m : HybridVAEP) (xcols : List String)
    (nbStates : Nat) (ycols : List String) (idx : List Nat) (learner : String)
    (valSize : ℚ) (treeParams fitParams : Option Params)
    (outcome : String → String → Option SubModel) :
    (m.fit xcols nbStates ycols idx learner valSize treeParams fitParams outcome).1.xfns_standard
        = m.xfns_standard
    ∧ (m.fit xcols nbStates ycols idx learner valSize treeParams fitParams outcome).1.xfns_result
        = m.xfns_result
    ∧ (m.fit xcols nbStates ycols idx learner valSize treeParams fitParams outcome).1.xfns_resultfree
        = m.xfns_resultfree
    ∧ (m.fit xcols nbStates ycols idx learner valSize treeParams fitParams outcome).1.yfns
        = m.yfns
    ∧ (m.fit xcols nbStates ycols idx learner valSize treeParams fitParams outcome).1.nb_prev_actions
        = m.nb_prev_actions
    ∧ feature_column_names
        (m.fit xcols nbStates ycols idx learner valSize treeParams fitParams outcome).1.xfns_standard
        (m.fit xcols nbStates ycols idx learner valSize treeParams fitParams outcome).1.nb_prev_actions
        = feature_column_names m.xfns_standard m.nb_prev_actions := by
  simp only [HybridVAEP.fit]
  split <;> simp

/-- Claim C1: the claim says rate (and score) on a never-fitted instance
raises NotFittedError.  In the code, `__init__` sets the private model
mapping to a dict with two (empty) entries, so the guard `if not
self.__models` on an unfitted instance is never taken: no constructor
arguments yield a NotFittedError from rate.  Instead, on an unfitted default
instance with all required feature columns present, rate propagates a
KeyError for the missing inner key "standard", contradicting rate's own
documented behavior. -/
theorem C1_unfitted_rate_never_notFitted :
    (∀ (xfns xr : Option (List FeatureTransfomer)) (nb : Nat) (xcols : List String),
      (HybridVAEP.init xfns xr nb).rate xcols ≠ Except.error PyError.notFitted)
    ∧ (HybridVAEP.init none none 3).rate
        (feature_column_names (HybridVAEP.init none none 3).xfns_standard 3)
      = Except.error (PyError.keyError "standard") := by
  constructor
  · intro xfns xr nb xcols
    unfold HybridVAEP.rate
    rw [init_models_isEmpty]
    simp only [Bool.false_eq_true, if_false]
    rcases h : (HybridVAEP.init xfns xr nb).estimate_probabilities xcols with e | yhat
    · simp only [h]
      intro heq
      injection heq with he
      exact estimate_ne_notFitted (HybridVAEP.init xfns xr nb) xcols (he ▸ h)
    · simp only [h]
      rcases hf : (["scores-standard", "scores-resultfree", "concedes-standard",
          "concedes-resultfree"].find? fun k => !yhat.contains k) with _ | k
      · simp
      · simp
  · decide

/-- In any constructed instance, the standard transformer list is the
result-free list followed by the result list (base.py lines 108-112). -/
theorem init_standard_decomp (xfns xr : Option (List FeatureTransfomer)) (nb : Nat) :
    (HybridVAEP.init xfns xr nb).xfns_standard
      = (HybridVAEP.init xfns xr nb).xfns_resultfree
          ++ (HybridVAEP.init xfns xr nb).xfns_result := by
  cases xfns <;> rfl

/-- Feature columns of a concatenation of transformer lists. -/
theorem fcn_append (a b : List FeatureTransfomer) (nb : Nat) :
    feature_column_names (a ++ b) nb
      = feature_column_names a nb ++ feature_column_names b nb := by
  simp [feature_column_names]

/-- An unregistered learner name falls through the dispatch. -/
theorem dispatch_none {learner : String} (h1 : learner ≠ "xgboost")
    (h2 : learner ≠ "catboost") (h3 : learner ≠ "lightgbm") (evalSet : Bool)
    (tp fp : Option Params) : dispatch learner evalSet tp fp = none := by
  simp [dispatch, h1, h2, h3]

/-- Claim C9 counterexample: with caller-supplied xfns = [time] and
xfns_result = [], the standard and result-free column sets coincide, so the
standard set is not a strict superset of the result-free set. -/
theorem C9_counterexample :
    feature_column_names
        (HybridVAEP.init (some [mkFT "time"]) (some []) 3).xfns_standard 3
      = feature_column_names
        (HybridVAEP.init (some [mkFT "time"]) (some []) 3).xfns_resultfree 3
    ∧ ¬ (feature_column_names
          (HybridVAEP.init (some [mkFT "time"]) (some []) 3).xfns_resultfree 3
        ⊆ feature_column_names
          (HybridVAEP.init (some [mkFT "time"]) (some []) 3).xfns_standard 3
      ∧ ¬ feature_column_names
          (HybridVAEP.init (some [mkFT "time"]) (some []) 3).xfns_standard 3
        ⊆ feature_column_names
          (HybridVAEP.init (some [mkFT "time"]) (some []) 3).xfns_resultfree 3) := by
  refine ⟨rfl, ?_⟩
  rintro ⟨h1, h2⟩
  exact h2 fun c hc => hc

/-- Claim C9 (amended): for every instance, the standard feature-column set
contains the result-free one; the containment is strict whenever the
configured xfns_result transformers contribute at least one column that the
result-free transformers do not produce (as the default xfns_result do), but
not for every caller-supplied xfns_result. -/
theorem C9_standard_superset (xfns xr : Option (List FeatureTransfomer)) (nb : Nat)
    (h : ∃ c, c ∈ feature_column_names (HybridVAEP.init xfns xr nb).xfns_result nb
        ∧ c ∉ feature_column_names (HybridVAEP.init xfns xr nb).xfns_resultfree nb) :
    feature_column_names (HybridVAEP.init xfns xr nb).xfns_resultfree nb
      ⊆ feature_column_names (HybridVAEP.init xfns xr nb).xfns_standard nb
    ∧ ¬ feature_column_names (HybridVAEP.init xfns xr nb).xfns_standard nb
      ⊆ feature_column_names (HybridVAEP.init xfns xr nb).xfns_resultfree nb := by
  rw [init_standard_decomp, fcn_append]
  constructor
  · exact List.subset_append_left _ _
  · obtain ⟨c, hc1, hc2⟩ := h
    intro hsub
    exact hc2 (hsub (List.mem_append_right _ hc1))

theorem C9_standard_superset_witness :
    ("result_onehot_a0"
        ∈ feature_column_names (HybridVAEP.init none none 3).xfns_result 3
      ∧ "result_onehot_a0"
        ∉ feature_column_names (HybridVAEP.init none none 3).xfns_resultfree 3)
    ∧ (feature_column_names (HybridVAEP.init none none 3).xfns_resultfree 3
        ⊆ feature_column_names (HybridVAEP.init none none 3).xfns_standard 3
      ∧ ¬ feature_column_names (HybridVAEP.init none none 3).xfns_standard 3
        ⊆ feature_column_names (HybridVAEP.init none none 3).xfns_resultfree 3) :=
  ⟨⟨by decide, by decide⟩,
    C9_standard_superset none none 3 ⟨"result_onehot_a0", by decide, by decide⟩⟩

/-- Claim C5 counterexample: a caller-supplied early_stopping_rounds of 50
with a positive validation split is overridden to the backend default 10 in
every backend call fit makes — the caller's value does not take precedence. -/
theorem C5_counterexample :
    (((HybridVAEP.init (some []) (some []) 3).fit [] 4 ["scores", "concedes"]
        [0, 1, 2, 3] "xgboost" (1 / 2) none
        (some [("early_stopping_rounds", PVal.nat 50)])
        (fun _ _ => some ⟨0⟩)).2.1.map
      fun call => dictGet call.fitParams "early_stopping_rounds")
      = [some (PVal.nat 10), some (PVal.nat 10), some (PVal.nat 10), some (PVal.nat 10)]
    ∧ (some (PVal.nat 10) : Option PVal) ≠ some (PVal.nat 50) := by
  refine ⟨?_, by decide⟩
  simp only [HybridVAEP.fit, decide_rat_lt_zero_half]
  decide

/-- Claim C5 (amended): when the caller supplies fit-time parameters they
replace the backend defaults wholesale, and for every key other than
early_stopping_rounds and eval_set the caller's value is the merged value;
but with a validation set present the trainer's early-stopping parameters
(early_stopping_rounds = 10 and the eval set) are merged last and override
caller-supplied values for those two keys (xgboost and lightgbm backends). -/
theorem C5_caller_params_precedence (fp : Params) (k : String)
    (h1 : k ≠ "early_stopping_rounds") (h2 : k ≠ "eval_set") :
    dictGet (fitParamsXgboost true (some fp)) k = dictGet fp k
    ∧ dictGet (fitParamsXgboost true (some fp)) "early_stopping_rounds"
        = some (PVal.nat 10)
    ∧ dictGet (fitParamsXgboost true (some fp)) "eval_set" = some PVal.evalSet
    ∧ dictGet (fitParamsLightgbm true (some fp)) k = dictGet fp k
    ∧ dictGet (fitParamsLightgbm true (some fp)) "early_stopping_rounds"
        = some (PVal.nat 10)
    ∧ dictGet (fitParamsLightgbm true (some fp)) "eval_set" = some PVal.evalSet := by
  have key : dictGet (fp ++ [("early_stopping_rounds", PVal.nat 10),
      ("eval_set", PVal.evalSet)]) k = dictGet fp k := by
    simp [dictGet, List.find?_append, List.find?_cons, Ne.symm h1, Ne.symm h2]
  have key2 : dictGet (fp ++ [("early_stopping_rounds", PVal.nat 10),
      ("eval_set", PVal.evalSet)]) "early_stopping_rounds" = some (PVal.nat 10) := by
    simp [dictGet, List.find?_append, List.find?_cons]
  have key3 : dictGet (fp ++ [("early_stopping_rounds", PVal.nat 10),
      ("eval_set", PVal.evalSet)]) "eval_set" = some PVal.evalSet := by
    simp [dictGet, List.find?_append, List.find?_cons]
  exact ⟨key, key2, key3, key, key2, key3⟩

theorem C5_caller_params_precedence_witness :
    (("verbose" : String) ≠ "early_stopping_rounds"
      ∧ ("verbose" : String) ≠ "eval_set")
    ∧ (dictGet (fitParamsXgboost true (some [("verbose", PVal.bool false)])) "verbose"
        = dictGet [("verbose", PVal.bool false)] "verbose"
      ∧ dictGet (fitParamsXgboost true (some [("verbose", PVal.bool false)]))
          "early_stopping_rounds" = some (PVal.nat 10)
      ∧ dictGet (fitParamsXgboost true (some [("verbose", PVal.bool false)]))
          "eval_set" = some PVal.evalSet
      ∧ dictGet (fitParamsLightgbm true (some [("verbose", PVal.bool false)])) "verbose"
        = dictGet [("verbose", PVal.bool false)] "verbose"
      ∧ dictGet (fitParamsLightgbm true (some [("verbose", PVal.bool false)]))
          "early_stopping_rounds" = some (PVal.nat 10)
      ∧ dictGet (fitParamsLightgbm true (some [("verbose", PVal.bool false)]))
          "eval_set" = some PVal.evalSet) :=
  ⟨⟨by decide, by decide⟩,
    C5_caller_params_precedence [("verbose", PVal.bool false)] "verbose"
      (by decide) (by decide)⟩

/-- Claim C6 counterexample: a fit call with the unregistered learner name
"randomforest" but an empty label-column list returns successfully (no error
at all), because the learner name is only checked inside the per-label
training loop. -/
theorem C6_counterexample :
    ((HybridVAEP.init (some []) (some []) 3).fit [] 0 [] [] "randomforest" (1 / 4)
        none none (fun _ _ => some ⟨0⟩)).2.2 = none := by
  decide

/-- Claim C6 (amended): a fit call with a learner name outside the registry,
a feature frame containing all required standard columns, and at least one
label column fails with UnsupportedLearnerError before any backend call is
made and with no sub-model stored, and with no fallback to another backend. -/
theorem C6_unsupported_learner (m : HybridVAEP) (xcols : List String)
    (nbStates : Nat) (c0 : String) (restY : List String) (idx : List Nat)
    (learner : String) (valSize : ℚ) (treeParams fitParams : Option Params)
    (outcome : String → String → Option SubModel)
    (hcols : (feature_column_names m.xfns_standard m.nb_prev_actions).all
        (fun c => xcols.contains c) = true)
    (h1 : learner ≠ "xgboost") (h2 : learner ≠ "catboost")
    (h3 : learner ≠ "lightgbm") :
    m.fit xcols nbStates (c0 :: restY) idx learner valSize treeParams fitParams outcome
      = (m, [], some (PyError.unsupportedLearner learner)) := by
  have hm := missingCols_eq_nil hcols
  simp only [HybridVAEP.fit, hm, List.isEmpty_nil, if_true, fitPairs,
    List.flatMap_cons, List.cons_append, fitLoop, dispatch_none h1 h2 h3]

theorem C6_unsupported_learner_witness :
    ((feature_column_names (HybridVAEP.init (some []) (some []) 3).xfns_standard
        (HybridVAEP.init (some []) (some []) 3).nb_prev_actions).all
        (fun c => List.contains [] c) = true
      ∧ ("gbm" : String) ≠ "xgboost" ∧ ("gbm" : String) ≠ "catboost"
      ∧ ("gbm" : String) ≠ "lightgbm")
    ∧ (HybridVAEP.init (some []) (some []) 3).fit [] 7 ("scores" :: ["concedes"])
        [0, 1, 2] "gbm" (1 / 4) none none (fun _ _ => some ⟨0⟩)
      = (HybridVAEP.init (some []) (some []) 3, [],
          some (PyError.unsupportedLearner "gbm")) :=
  ⟨⟨by decide, by decide, by decide, by decide⟩,
    C6_unsupported_learner (HybridVAEP.init (some []) (some []) 3) [] 7 "scores"
      ["concedes"] [0, 1, 2] "gbm" (1 / 4) none none (fun _ _ => some ⟨0⟩)
      (by decide) (by decide) (by decide) (by decide)⟩

/-- Claim C7: a fit or probability-estimation call on a feature frame missing
at least one required standard column fails with the missing-feature error
before any training or prediction (the instance is unchanged, no backend call
is made), and the error lists exactly the missing columns — no missing column
is silently imputed. -/
theorem C7_missing_feature_error (m : HybridVAEP) (xcols : List String)
    (nbStates : Nat) (ycols : List String) (idx : List Nat) (learner : String)
    (valSize : ℚ) (treeParams fitParams : Option Params)
    (outcome : String → String → Option SubModel)
    (h : ¬ ∀ c ∈ feature_column_names m.xfns_standard m.nb_prev_actions, c ∈ xcols) :
    m.fit xcols nbStates ycols idx learner valSize treeParams fitParams outcome
      = (m, [], some (PyError.missingFeature (missingCols m xcols)))
    ∧ m.estimate_probabilities xcols
      = Except.error (PyError.missingFeature (missingCols m xcols))
    ∧ missingCols m xcols ≠ []
    ∧ ∀ c, c ∈ missingCols m xcols
        ↔ c ∈ feature_column_names m.xfns_standard m.nb_prev_actions ∧ c ∉ xcols := by
  have hmem : ∀ c, c ∈ missingCols m xcols
      ↔ c ∈ feature_column_names m.xfns_standard m.nb_prev_actions ∧ c ∉ xcols := by
    intro c
    simp only [missingCols, List.mem_dedup, List.mem_filter, Bool.not_eq_true',
      contains_false_iff]
  have hne : missingCols m xcols ≠ [] := by
    push_neg at h
    obtain ⟨c, hc1, hc2⟩ := h
    exact List.ne_nil_of_mem ((hmem c).mpr ⟨hc1, hc2⟩)
  have hE : (missingCols m xcols).isEmpty = false := by
    rcases hb : (missingCols m xcols).isEmpty with _ | _
    · rfl
    · exact absurd (List.isEmpty_iff.mp hb) hne
  refine ⟨?_, ?_, hne, hmem⟩
  · simp only [HybridVAEP.fit, hE, Bool.false_eq_true, if_false]
  · simp only [HybridVAEP.estimate_probabilities, hE, Bool.false_eq_true, if_false]

theorem C7_missing_feature_error_witness :
    (¬ ∀ c ∈ feature_column_names (HybridVAEP.init none none 3).xfns_standard
        (HybridVAEP.init none none 3).nb_prev_actions, c ∈ (["time_a0"] : List String))
    ∧ ((HybridVAEP.init none none 3).fit ["time_a0"] 5 ["scores", "concedes"] []
          "xgboost" 0 none none (fun _ _ => some ⟨0⟩)
        = (HybridVAEP.init none none 3, [],
            some (PyError.missingFeature (missingCols (HybridVAEP.init none none 3) ["time_a0"])))
      ∧ (HybridVAEP.init none none 3).estimate_probabilities ["time_a0"]
        = Except.error
            (PyError.missingFeature (missingCols (HybridVAEP.init none none 3) ["time_a0"]))
      ∧ missingCols (HybridVAEP.init none none 3) ["time_a0"] ≠ []
      ∧ ∀ c, c ∈ missingCols (HybridVAEP.init none none 3) ["time_a0"]
          ↔ c ∈ feature_column_names (HybridVAEP.init none none 3).xfns_standard
              (HybridVAEP.init none none 3).nb_prev_actions
            ∧ c ∉ (["time_a0"] : List String)) :=
  ⟨by decide,
    C7_missing_feature_error (HybridVAEP.init none none 3) ["time_a0"] 5
      ["scores", "concedes"] [] "xgboost" 0 none none (fun _ _ => some ⟨0⟩) (by decide)⟩

/-- The model mapping written by `__init__`, explicitly. -/
theorem init_models (xfns xr : Option (List FeatureTransfomer)) (nb : Nat) :
    (HybridVAEP.init xfns xr nb).models = [("scores", []), ("concedes", [])] := rfl

/-- With no eval set, the xgboost fit parameters gain no early-stopping keys:
those keys are present only if the caller put them there. -/
theorem no_es_key_xgboost (fp : Option Params) :
    dictGet (fitParamsXgboost false fp) "early_stopping_rounds"
      = (match fp with | none => none | some p => dictGet p "early_stopping_rounds")
    ∧ dictGet (fitParamsXgboost false fp) "eval_set"
      = (match fp with | none => none | some p => dictGet p "eval_set") := by
  cases fp with
  | none => exact ⟨by decide, by decide⟩
  | some p => exact ⟨rfl, rfl⟩

/-- With no eval set, the catboost fit parameters gain no early-stopping
keys. -/
theorem no_es_key_catboost (fp : Option Params) :
    dictGet (fitParamsCatboost false fp) "early_stopping_rounds"
      = (match fp with | none => none | some p => dictGet p "early_stopping_rounds")
    ∧ dictGet (fitParamsCatboost false fp) "eval_set"
      = (match fp with | none => none | some p => dictGet p "eval_set") := by
  cases fp with
  | none => exact ⟨by decide, by decide⟩
  | some p => exact ⟨rfl, rfl⟩

/-- With no eval set, the lightgbm fit parameters gain no early-stopping
keys. -/
theorem no_es_key_lightgbm (fp : Option Params) :
    dictGet (fitParamsLightgbm false fp) "early_stopping_rounds"
      = (match fp with | none => none | some p => dictGet p "early_stopping_rounds")
    ∧ dictGet (fitParamsLightgbm false fp) "eval_set"
      = (match fp with | none => none | some p => dictGet p "eval_set") := by
  cases fp with
  | none => exact ⟨by decide, by decide⟩
  | some p => exact ⟨rfl, rfl⟩

/-- Claim C8: with split ratio 0 no validation set is passed to the backend
(every backend call carries eval_set = None) and no early-stopping parameters
are added to the backend fit parameters (the early_stopping_rounds and
eval_set keys appear only if the caller's own fit parameters contained them);
absent other failures the trainer still reaches the fitted state with all
four sub-models stored. -/
theorem C8_zero_split_no_early_stopping (xfns xr : Option (List FeatureTransfomer))
    (nb nbStates : Nat) (xcols : List String) (idx : List Nat) (learner : String)
    (treeParams fitParams : Option Params)
    (outcome : String → String → Option SubModel)
    (hlearn : learner = "xgboost" ∨ learner = "catboost" ∨ learner = "lightgbm")
    (hcols : (feature_column_names (HybridVAEP.init xfns xr nb).xfns_standard
        (HybridVAEP.init xfns xr nb).nb_prev_actions).all
        (fun c => xcols.contains c) = true)
    (hout : ∀ c v, (outcome c v).isSome = true) :
    ((HybridVAEP.init xfns xr nb).fit xcols nbStates ["scores", "concedes"] idx
        learner 0 treeParams fitParams outcome).2.2 = none
    ∧ allFourFitted ((HybridVAEP.init xfns xr nb).fit xcols nbStates
        ["scores", "concedes"] idx learner 0 treeParams fitParams outcome).1 = true
    ∧ (((HybridVAEP.init xfns xr nb).fit xcols nbStates ["scores", "concedes"] idx
        learner 0 treeParams fitParams outcome).2.1.map fun call =>
          (call.evalSet, dictGet call.fitParams "early_stopping_rounds",
            dictGet call.fitParams "eval_set"))
      = List.replicate 4 (false,
          (match fitParams with | none => none | some p => dictGet p "early_stopping_rounds"),
          (match fitParams with | none => none | some p => dictGet p "eval_set")) := by
  obtain ⟨sm1, hs1⟩ := Option.isSome_iff_exists.mp (hout "scores" "standard")
  obtain ⟨sm2, hs2⟩ := Option.isSome_iff_exists.mp (hout "scores" "resultfree")
  obtain ⟨sm3, hs3⟩ := Option.isSome_iff_exists.mp (hout "concedes" "standard")
  obtain ⟨sm4, hs4⟩ := Option.isSome_iff_exists.mp (hout "concedes" "resultfree")
  rcases hlearn with h | h | h <;> subst h
  · simp [HybridVAEP.fit, missingCols_eq_nil hcols, decide_rat_lt_zero_zero,
      fitPairs, fitLoop, dispatch, hs1, hs2, hs3, hs4, storeModel, setInner,
      getModel, lookupA, allFourFitted, List.replicate, init_models,
      (no_es_key_xgboost fitParams).1, (no_es_key_xgboost fitParams).2]
  · simp [HybridVAEP.fit, missingCols_eq_nil hcols, decide_rat_lt_zero_zero,
      fitPairs, fitLoop, dispatch, hs1, hs2, hs3, hs4, storeModel, setInner,
      getModel, lookupA, allFourFitted, List.replicate, init_models,
      (no_es_key_catboost fitParams).1, (no_es_key_catboost fitParams).2]
  · simp [HybridVAEP.fit, missingCols_eq_nil hcols, decide_rat_lt_zero_zero,
      fitPairs, fitLoop, dispatch, hs1, hs2, hs3, hs4, storeModel, setInner,
      getModel, lookupA, allFourFitted, List.replicate, init_models,
      (no_es_key_lightgbm fitParams).1, (no_es_key_lightgbm fitParams).2]

theorem C8_zero_split_no_early_stopping_witness :
    (("xgboost" = "xgboost" ∨ "xgboost" = "catboost" ∨ "xgboost" = "lightgbm")
      ∧ (feature_column_names (HybridVAEP.init (some []) (some []) 3).xfns_standard
          (HybridVAEP.init (some []) (some []) 3).nb_prev_actions).all
          (fun c => List.contains [] c) = true
      ∧ (∀ c v : String, ((fun _ _ => some (⟨0⟩ : SubModel)) c v).isSome = true))
    ∧ (((HybridVAEP.init (some []) (some []) 3).fit [] 9 ["scores", "concedes"] []
          "xgboost" 0 none none (fun _ _ => some ⟨0⟩)).2.2 = none
      ∧ allFourFitted ((HybridVAEP.init (some []) (some []) 3).fit [] 9
          ["scores", "concedes"] [] "xgboost" 0 none none (fun _ _ => some ⟨0⟩)).1 = true
      ∧ (((HybridVAEP.init (some []) (some []) 3).fit [] 9 ["scores", "concedes"] []
          "xgboost" 0 none none (fun _ _ => some ⟨0⟩)).2.1.map fun call =>
            (call.evalSet, dictGet call.fitParams "early_stopping_rounds",
              dictGet call.fitParams "eval_set"))
        = List.replicate 4 (false,
            (match (none : Option Params) with
              | none => none | some p => dictGet p "early_stopping_rounds"),
            (match (none : Option Params) with
              | none => none | some p => dictGet p "eval_set"))) :=
  ⟨⟨Or.inl rfl, by decide, fun _ _ => rfl⟩,
    C8_zero_split_no_early_stopping (some []) (some []) 3 9 [] [] "xgboost"
      none none (fun _ _ => some ⟨0⟩) (Or.inl rfl) (by decide) (fun _ _ => rfl)⟩

/-- Claim C4 counterexample: when backend training fails on the third
sub-model (concedes, standard), fit propagates the failure but the two
sub-models trained before it remain stored — a partial model set is
retained, contradicting the claim that no partial model set survives a
failure. -/
theorem C4_counterexample :
    ((HybridVAEP.init (some []) (some []) 3).fit [] 0 ["scores", "concedes"] []
        "xgboost" 0 none none
        (fun c v => if c = "concedes" ∧ v = "standard" then none
          else some ⟨1⟩)).2.2
      = some (PyError.backendFailure "concedes" "standard")
    ∧ getModel ((HybridVAEP.init (some []) (some []) 3).fit [] 0
        ["scores", "concedes"] [] "xgboost" 0 none none
        (fun c v => if c = "concedes" ∧ v = "standard" then none
          else some ⟨1⟩)).1 "scores" "standard" = some ⟨1⟩
    ∧ getModel ((HybridVAEP.init (some []) (some []) 3).fit [] 0
        ["scores", "concedes"] [] "xgboost" 0 none none
        (fun c v => if c = "concedes" ∧ v = "standard" then none
          else some ⟨1⟩)).1 "scores" "resultfree" = some ⟨1⟩ := by
  refine ⟨?_, ?_, ?_⟩ <;> decide

set_option maxHeartbeats 6400000 in
/-- Claim C4 (amended): fit succeeds exactly when all four sub-model
trainings succeed, in which case the four sub-models the backend returned are
stored; on a training failure fit propagates the first failure in loop order
(scores/standard, scores/resultfree, concedes/standard, concedes/resultfree),
sub-models trained before the failing pair remain stored, and neither the
failing pair's sub-model nor any later pair's is stored. -/
theorem C4_fit_failure_retains_prefix (xfns xr : Option (List FeatureTransfomer))
    (nb nbStates : Nat) (xcols : List String) (idx : List Nat) (learner : String)
    (valSize : ℚ) (treeParams fitParams : Option Params)
    (outcome : String → String → Option SubModel)
    (r : HybridVAEP × List BackendCall × Option PyError)
    (hlearn : learner = "xgboost" ∨ learner = "catboost" ∨ learner = "lightgbm")
    (hcols : (feature_column_names (HybridVAEP.init xfns xr nb).xfns_standard
        (HybridVAEP.init xfns xr nb).nb_prev_actions).all
        (fun c => xcols.contains c) = true)
    (hr : r = (HybridVAEP.init xfns xr nb).fit xcols nbStates
        ["scores", "concedes"] idx learner valSize treeParams fitParams outcome) :
    (r.2.2 = none
      ↔ ((outcome "scores" "standard").isSome ∧ (outcome "scores" "resultfree").isSome
        ∧ (outcome "concedes" "standard").isSome ∧ (outcome "concedes" "resultfree").isSome))
    ∧ (r.2.2 = none →
        (getModel r.1 "scores" "standard" = outcome "scores" "standard"
          ∧ getModel r.1 "scores" "resultfree" = outcome "scores" "resultfree"
          ∧ getModel r.1 "concedes" "standard" = outcome "concedes" "standard"
          ∧ getModel r.1 "concedes" "resultfree" = outcome "concedes" "resultfree"
          ∧ allFourFitted r.1 = true))
    ∧ (outcome "scores" "standard" = none →
        (r.2.2 = some (PyError.backendFailure "scores" "standard")
          ∧ getModel r.1 "scores" "standard" = none
          ∧ getModel r.1 "scores" "resultfree" = none
          ∧ getModel r.1 "concedes" "standard" = none
          ∧ getModel r.1 "concedes" "resultfree" = none))
    ∧ (outcome "scores" "standard" ≠ none → outcome "scores" "resultfree" = none →
        (r.2.2 = some (PyError.backendFailure "scores" "resultfree")
          ∧ getModel r.1 "scores" "standard" = outcome "scores" "standard"
          ∧ getModel r.1 "scores" "resultfree" = none
          ∧ getModel r.1 "concedes" "standard" = none
          ∧ getModel r.1 "concedes" "resultfree" = none))
    ∧ (outcome "scores" "standard" ≠ none → outcome "scores" "resultfree" ≠ none → outcome "concedes" "standard" = none →
        (r.2.2 = some (PyError.backendFailure "concedes" "standard")
          ∧ getModel r.1 "scores" "standard" = outcome "scores" "standard"
          ∧ getModel r.1 "scores" "resultfree" = outcome "scores" "resultfree"
          ∧ getModel r.1 "concedes" "standard" = none
          ∧ getModel r.1 "concedes" "resultfree" = none))
    ∧ (outcome "scores" "standard" ≠ none → outcome "scores" "resultfree" ≠ none → outcome "concedes" "standard" ≠ none →
        outcome "concedes" "resultfree" = none →
        (r.2.2 = some (PyError.backendFailure "concedes" "resultfree")
          ∧ getModel r.1 "scores" "standard" = outcome "scores" "standard"
          ∧ getModel r.1 "scores" "resultfree" = outcome "scores" "resultfree"
          ∧ getModel r.1 "concedes" "standard" = outcome "concedes" "standard"
          ∧ getModel r.1 "concedes" "resultfree" = none)) := by
  subst hr
  rcases hlearn with h | h | h <;> subst h <;>
    rcases h1 : outcome "scores" "standard" with _ | sm1 <;>
    rcases h2 : outcome "scores" "resultfree" with _ | sm2 <;>
    rcases h3 : outcome "concedes" "standard" with _ | sm3 <;>
    rcases h4 : outcome "concedes" "resultfree" with _ | sm4 <;>
    simp [HybridVAEP.fit, missingCols_eq_nil hcols, fitPairs, fitLoop, dispatch,
      h1, h2, h3, h4, storeModel, setInner, getModel, lookupA, allFourFitted,
      init_models]

theorem C4_fit_failure_retains_prefix_witness :
    (("xgboost" = "xgboost" ∨ "xgboost" = "catboost" ∨ "xgboost" = "lightgbm")
      ∧ (feature_column_names (HybridVAEP.init (some []) (some []) 3).xfns_standard
          (HybridVAEP.init (some []) (some []) 3).nb_prev_actions).all
          (fun c => List.contains [] c) = true)
    ∧ (
      (((HybridVAEP.init (some []) (some []) 3).fit [] 6 ["scores", "concedes"] []
        "xgboost" 0 none none
        (fun c _ => if c = "scores" then some (⟨5⟩ : SubModel) else none)).2.2 = none
        ↔ ((((fun c _ => if c = "scores" then some (⟨5⟩ : SubModel) else none) "scores" "standard")).isSome ∧ (((fun c _ => if c = "scores" then some (⟨5⟩ : SubModel) else none) "scores" "resultfree")).isSome
          ∧ (((fun c _ => if c = "scores" then some (⟨5⟩ : SubModel) else none) "concedes" "standard")).isSome ∧ (((fun c _ => if c = "scores" then some (⟨5⟩ : SubModel) else none) "concedes" "resultfree")).isSome))
      ∧ (((HybridVAEP.init (some []) (some []) 3).fit [] 6 ["scores", "concedes"] []
        "xgboost" 0 none none
        (fun c _ => if c = "scores" then some (⟨5⟩ : SubModel) else none)).2.2 = none →
          (getModel ((HybridVAEP.init (some []) (some []) 3).fit [] 6 ["scores", "concedes"] []
        "xgboost" 0 none none
        (fun c _ => if c = "scores" then some (⟨5⟩ : SubModel) else none)).1 "scores" "standard" = ((fun c _ => if c = "scores" then some (⟨5⟩ : SubModel) else none) "scores" "standard")
            ∧ getModel ((HybridVAEP.init (some []) (some []) 3).fit [] 6 ["scores", "concedes"] []
        "xgboost" 0 none none
        (fun c _ => if c = "scores" then some (⟨5⟩ : SubModel) else none)).1 "scores" "resultfree" = ((fun c _ => if c = "scores" then some (⟨5⟩ : SubModel) else none) "scores" "resultfree")
            ∧ getModel ((HybridVAEP.init (some []) (some []) 3).fit [] 6 ["scores", "concedes"] []
        "xgboost" 0 none none
        (fun c _ => if c = "scores" then some (⟨5⟩ : SubModel) else none)).1 "concedes" "standard" = ((fun c _ => if c = "scores" then some (⟨5⟩ : SubModel) else none) "concedes" "standard")
            ∧ getModel ((HybridVAEP.init (some []) (some []) 3).fit [] 6 ["scores", "concedes"] []
        "xgboost" 0 none none
        (fun c _ => if c = "scores" then some (⟨5⟩ : SubModel) else none)).1 "concedes" "resultfree" = ((fun c _ => if c = "scores" then some (⟨5⟩ : SubModel) else none) "concedes" "resultfree")
            ∧ allFourFitted ((HybridVAEP.init (some []) (some []) 3).fit [] 6 ["scores", "concedes"] []
        "xgboost" 0 none none
        (fun c _ => if c = "scores" then some (⟨5⟩ : SubModel) else none)).1 = true))
      ∧ (((fun c _ => if c = "scores" then some (⟨5⟩ : SubModel) else none) "scores" "standard") = none →
          (((HybridVAEP.init (some []) (some []) 3).fit [] 6 ["scores", "concedes"] []
        "xgboost" 0 none none
        (fun c _ => if c = "scores" then some (⟨5⟩ : SubModel) else none)).2.2 = some (PyError.backendFailure "scores" "standard")
            ∧ getModel ((HybridVAEP.init (some []) (some []) 3).fit [] 6 ["scores", "concedes"] []
        "xgboost" 0 none none
        (fun c _ => if c = "scores" then some (⟨5⟩ : SubModel) else none)).1 "scores" "standard" = none
            ∧ getModel ((HybridVAEP.init (some []) (some []) 3).fit [] 6 ["scores", "concedes"] []
        "xgboost" 0 none none
        (fun c _ => if c = "scores" then some (⟨5⟩ : SubModel) else none)).1 "scores" "resultfree" = none
            ∧ getModel ((HybridVAEP.init (some []) (some []) 3).fit [] 6 ["scores", "concedes"] []
        "xgboost" 0 none none
        (fun c _ => if c = "scores" then some (⟨5⟩ : SubModel) else none)).1 "concedes" "standard" = none
            ∧ getModel ((HybridVAEP.init (some []) (some []) 3).fit [] 6 ["scores", "concedes"] []
        "xgboost" 0 none none
        (fun c _ => if c = "scores" then some (⟨5⟩ : SubModel) else none)).1 "concedes" "resultfree" = none))
      ∧ (((fun c _ => if c = "scores" then some (⟨5⟩ : SubModel) else none) "scores" "standard") ≠ none → ((fun c _ => if c = "scores" then some (⟨5⟩ : SubModel) else none) "scores" "resultfree") = none →
          (((HybridVAEP.init (some []) (some []) 3).fit [] 6 ["scores", "concedes"] []
        "xgboost" 0 none none
        (fun c _ => if c = "scores" then some (⟨5⟩ : SubModel) else none)).2.2 = some (PyError.backendFailure "scores" "resultfree")
            ∧ getModel ((HybridVAEP.init (some []) (some []) 3).fit [] 6 ["scores", "concedes"] []
        "xgboost" 0 none none
        (fun c _ => if c = "scores" then some (⟨5⟩ : SubModel) else none)).1 "scores" "standard" = ((fun c _ => if c = "scores" then some (⟨5⟩ : SubModel) else none) "scores" "standard")
            ∧ getModel ((HybridVAEP.init (some []) (some []) 3).fit [] 6 ["scores", "concedes"] []
        "xgboost" 0 none none
        (fun c _ => if c = "scores" then some (⟨5⟩ : SubModel) else none)).1 "scores" "resultfree" = none
            ∧ getModel ((HybridVAEP.init (some []) (some []) 3).fit [] 6 ["scores", "concedes"] []
        "xgboost" 0 none none
        (fun c _ => if c = "scores" then some (⟨5⟩ : SubModel) else none)).1 "concedes" "standard" = none
            ∧ getModel ((HybridVAEP.init (some []) (some []) 3).fit [] 6 ["scores", "concedes"] []
        "xgboost" 0 none none
        (fun c _ => if c = "scores" then some (⟨5⟩ : SubModel) else none)).1 "concedes" "resultfree" = none))
      ∧ (((fun c _ => if c = "scores" then some (⟨5⟩ : SubModel) else none) "scores" "standard") ≠ none → ((fun c _ => if c = "scores" then some (⟨5⟩ : SubModel) else none) "scores" "resultfree") ≠ none → ((fun c _ => if c = "scores" then some (⟨5⟩ : SubModel) else none) "concedes" "standard") = none →
          (((HybridVAEP.init (some []) (some []) 3).fit [] 6 ["scores", "concedes"] []
        "xgboost" 0 none none
        (fun c _ => if c = "scores" then some (⟨5⟩ : SubModel) else none)).2.2 = some (PyError.backendFailure "concedes" "standard")
            ∧ getModel ((HybridVAEP.init (some []) (some []) 3).fit [] 6 ["scores", "concedes"] []
        "xgboost" 0 none none
        (fun c _ => if c = "scores" then some (⟨5⟩ : SubModel) else none)).1 "scores" "standard" = ((fun c _ => if c = "scores" then some (⟨5⟩ : SubModel) else none) "scores" "standard")
            ∧ getModel ((HybridVAEP.init (some []) (some []) 3).fit [] 6 ["scores", "concedes"] []
        "xgboost" 0 none none
        (fun c _ => if c = "scores" then some (⟨5⟩ : SubModel) else none)).1 "scores" "resultfree" = ((fun c _ => if c = "scores" then some (⟨5⟩ : SubModel) else none) "scores" "resultfree")
            ∧ getModel ((HybridVAEP.init (some []) (some []) 3).fit [] 6 ["scores", "concedes"] []
        "xgboost" 0 none none
        (fun c _ => if c = "scores" then some (⟨5⟩ : SubModel) else none)).1 "concedes" "standard" = none
            ∧ getModel ((HybridVAEP.init (some []) (some []) 3).fit [] 6 ["scores", "concedes"] []
        "xgboost" 0 none none
        (fun c _ => if c = "scores" then some (⟨5⟩ : SubModel) else none)).1 "concedes" "resultfree" = none))
      ∧ (((fun c _ => if c = "scores" then some (⟨5⟩ : SubModel) else none) "scores" "standard") ≠ none → ((fun c _ => if c = "scores" then some (⟨5⟩ : SubModel) else none) "scores" "resultfree") ≠ none → ((fun c _ => if c = "scores" then some (⟨5⟩ : SubModel) else none) "concedes" "standard") ≠ none →
          ((fun c _ => if c = "scores" then some (⟨5⟩ : SubModel) else none) "concedes" "resultfree") = none →
          (((HybridVAEP.init (some []) (some []) 3).fit [] 6 ["scores", "concedes"] []
        "xgboost" 0 none none
        (fun c _ => if c = "scores" then some (⟨5⟩ : SubModel) else none)).2.2 = some (PyError.backendFailure "concedes" "resultfree")
            ∧ getModel ((HybridVAEP.init (some []) (some []) 3).fit [] 6 ["scores", "concedes"] []
        "xgboost" 0 none none
        (fun c _ => if c = "scores" then some (⟨5⟩ : SubModel) else none)).1 "scores" "standard" = ((fun c _ => if c = "scores" then some (⟨5⟩ : SubModel) else none) "scores" "standard")
            ∧ getModel ((HybridVAEP.init (some []) (some []) 3).fit [] 6 ["scores", "concedes"] []
        "xgboost" 0 none none
        (fun c _ => if c = "scores" then some (⟨5⟩ : SubModel) else none)).1 "scores" "resultfree" = ((fun c _ => if c = "scores" then some (⟨5⟩ : SubModel) else none) "scores" "resultfree")
            ∧ getModel ((HybridVAEP.init (some []) (some []) 3).fit [] 6 ["scores", "concedes"] []
        "xgboost" 0 none none
        (fun c _ => if c = "scores" then some (⟨5⟩ : SubModel) else none)).1 "concedes" "standard" = ((fun c _ => if c = "scores" then some (⟨5⟩ : SubModel) else none) "concedes" "standard")
            ∧ getModel ((HybridVAEP.init (some []) (some []) 3).fit [] 6 ["scores", "concedes"] []
        "xgboost" 0 none none
        (fun c _ => if c = "scores" then some (⟨5⟩ : SubModel) else none)).1 "concedes" "resultfree" = none))) :=
  ⟨⟨Or.inl rfl, by decide⟩,
    C4_fit_failure_retains_prefix (some []) (some []) 3 6 [] [] "xgboost" 0
      none none (fun c _ => if c = "scores" then some (⟨5⟩ : SubModel) else none) _
      (Or.inl rfl) (by decide) rfl⟩

/-- Claim C2: the claim says score on a fitted instance returns, per label
column, a Brier score and an AUROC value.  In the code,
_estimate_probabilities names the probability columns col-version
("scores-standard", ...), while score reads `y_hat[col]` with the bare label
name ("scores"); that column does not exist, so every score call on a fitted
instance raises KeyError("scores") and never returns the metrics,
contradicting score's own documented return value. -/
theorem C2_score_raises_keyerror :
    (((HybridVAEP.init none none 3).fit
        (feature_column_names (HybridVAEP.init none none 3).xfns_standard 3) 0
        ["scores", "concedes"] [] "xgboost" 0 none none
        (fun _ _ => some ⟨0⟩)).2.2 = none)
    ∧ allFourFitted ((HybridVAEP.init none none 3).fit
        (feature_column_names (HybridVAEP.init none none 3).xfns_standard 3) 0
        ["scores", "concedes"] [] "xgboost" 0 none none
        (fun _ _ => some ⟨0⟩)).1 = true
    ∧ ((HybridVAEP.init none none 3).fit
        (feature_column_names (HybridVAEP.init none none 3).xfns_standard 3) 0
        ["scores", "concedes"] [] "xgboost" 0 none none
        (fun _ _ => some ⟨0⟩)).1.estimate_probabilities
        (feature_column_names (HybridVAEP.init none none 3).xfns_standard 3)
      = Except.ok ["scores-standard", "scores-resultfree", "concedes-standard",
          "concedes-resultfree"]
    ∧ ((HybridVAEP.init none none 3).fit
        (feature_column_names (HybridVAEP.init none none 3).xfns_standard 3) 0
        ["scores", "concedes"] [] "xgboost" 0 none none
        (fun _ _ => some ⟨0⟩)).1.score
        (feature_column_names (HybridVAEP.init none none 3).xfns_standard 3)
        ["scores", "concedes"] (fun _ => 0) (fun _ => 0)
      = Except.error (PyError.keyError "scores") := by
  refine ⟨?_, ?_, ?_, ?_⟩ <;> decide
